import Mathlib

/-!
Verification of `tools/run_swo.py` (nqs-playground), a sampling-while-optimizing
training loop for a neural quantum state split into an amplitude network and a
2-class phase (sign) classifier.

Shallow embedding conventions:
* spin configurations are abstracted as natural numbers (they are only ever
  passed to network evaluators and stored in ensembles);
* floating-point tensors of values are embedded as lists of rationals, with
  tensor operations (`torch.abs`, `torch.where`, `torch.dot`, elementwise `+`
  and `/`) as the corresponding exact list operations;
* the external sampling engine `_C_nqs` and the torch training loops are not
  part of this file's source; they enter as explicit function parameters
  (an `Env` record), and the orchestration code of `run_swo.py` is embedded
  faithfully over that record;
* Python exceptions (the `assert` in `optimise_scale`) are embedded as
  `Option`: `none` is an uncaught exception, and since the script installs no
  handler, `none` propagates through `swo_step` and the outer loop;
* the side-effect order of `swo_step` (checkpoint saves, sampler invocations,
  ensemble merges) is recorded as an explicit event trace.
-/

/-- Index of the first maximal element of a list of logits, as computed by
`torch.max(..., dim=1)`: the index of the first occurrence of the maximum is
returned, so ties break toward the smaller index.  `torchArgmaxAux xs i best bestV`
scans `xs` whose head sits at index `i`, with current best index `best` holding
value `bestV`. -/
def torchArgmaxAux : List ℚ → ℕ → ℕ → ℚ → ℕ
  | [], _, best, _ => best
  | v :: vs, i, best, bestV =>
      if bestV < v then torchArgmaxAux vs (i + 1) i v
      else torchArgmaxAux vs (i + 1) best bestV

/-- Argmax of a list of logits with first-index tie-break (empty list gives 0). -/
def torchArgmax : List ℚ → ℕ
  | [] => 0
  | v :: vs => torchArgmaxAux vs 1 0 v

/-- Embedding of `CombiningState` from `run_swo.py`: a regressor `amplitude`
predicting the wave-function amplitude of a configuration and a classifier
`phase` producing logits for the two sign classes. -/
structure CombiningState where
  amplitude : ℕ → ℚ
  phase : ℕ → List ℚ

/-- Embedding of `CombiningState.forward` on a single configuration (the torch
code applies exactly this computation to every row of the batch):
`A = amplitude(x)`, `phi = argmax(phase(x))`, `phi = 1 - 2 * phi`,
result `A * phi`. -/
def CombiningState.forward (s : CombiningState) (x : ℕ) : ℚ :=
  let A := s.amplitude x
  let phi : ℤ := 1 - 2 * (torchArgmax (s.phase x) : ℤ)
  A * (phi : ℚ)

/-- Embedding of `CombiningState.forward` on a batch of configurations. -/
def CombiningState.forwardBatch (s : CombiningState) (xs : List ℕ) : List ℚ :=
  xs.map s.forward

/-- A concrete combined state whose amplitude network returns `2` everywhere and
whose phase network returns logits `[0.1, 0.9]` everywhere. -/
def exampleCombiningState : CombiningState :=
  ⟨fun _ => 2, fun _ => [1/10, 9/10]⟩

theorem torchArgmax_pair (l0 l1 : ℚ) :
    torchArgmax [l0, l1] = if l0 < l1 then 1 else 0 := by
  by_cases h : l0 < l1 <;> simp [torchArgmax, torchArgmaxAux, h]

/-- Claim C1: the combined evaluator returns `amplitude(x)` times a sign in
`{+1, -1}` derived from the 2-class phase classifier's argmax (class 0 ↦ `+1`,
class 1 ↦ `-1`); on the concrete instance with amplitude `2` and logits
`[0.1, 0.9]` it returns `-2`. -/
theorem combining_forward_sign (s : CombiningState) (x : ℕ) (l0 l1 : ℚ)
    (h : s.phase x = [l0, l1]) :
    s.forward x = s.amplitude x * (if torchArgmax [l0, l1] = 0 then 1 else -1)
      ∧ (torchArgmax [l0, l1] = 0 ∨ torchArgmax [l0, l1] = 1)
      ∧ exampleCombiningState.forward 0 = -2 := by
  have harg := torchArgmax_pair l0 l1
  have hex : exampleCombiningState.forward 0 = -2 := by
    have h1 : torchArgmax [(1:ℚ)/10, 9/10] = 1 := by
      rw [torchArgmax_pair]; norm_num
    simp only [exampleCombiningState, CombiningState.forward]
    rw [h1]
    norm_num
  refine ⟨?_, ?_, hex⟩
  · by_cases hc : l0 < l1 <;>
      simp [CombiningState.forward, h, harg, hc]
  · by_cases hc : l0 < l1 <;> simp [harg, hc]

/-- Witness for C1 at the concrete instance of the claim. -/
theorem combining_forward_sign_witness :
    exampleCombiningState.phase 0 = [1/10, 9/10]
      ∧ (exampleCombiningState.forward 0
            = exampleCombiningState.amplitude 0
              * (if torchArgmax [1/10, 9/10] = 0 then 1 else -1)
          ∧ (torchArgmax [(1:ℚ)/10, 9/10] = 0 ∨ torchArgmax [(1:ℚ)/10, 9/10] = 1)
          ∧ exampleCombiningState.forward 0 = -2) :=
  ⟨rfl, combining_forward_sign exampleCombiningState 0 (1/10) (9/10) rfl⟩

/-- Claim C7: on equal logits, `torch.max`'s argmax tie-break selects the first
index (class 0), so the combined evaluator's sign for that configuration is
`+1` and it returns the amplitude unchanged. -/
theorem combining_forward_tie (s : CombiningState) (x : ℕ) (l : ℚ)
    (h : s.phase x = [l, l]) :
    torchArgmax (s.phase x) = 0 ∧ s.forward x = s.amplitude x := by
  have harg : torchArgmax [l, l] = 0 := by
    simp [torchArgmax_pair]
  refine ⟨by simp [h, harg], ?_⟩
  simp [CombiningState.forward, h, harg]

/-- Witness for C7: a concrete state with equal logits `[5, 5]`. -/
theorem combining_forward_tie_witness :
    (CombiningState.mk (fun _ => 3) (fun _ => [5, 5])).phase 0 = [5, 5]
      ∧ (torchArgmax ((CombiningState.mk (fun _ => 3) (fun _ => [5, 5])).phase 0) = 0
          ∧ (CombiningState.mk (fun _ => 3) (fun _ => [5, 5])).forward 0
              = (CombiningState.mk (fun _ => 3) (fun _ => [5, 5])).amplitude 0) :=
  ⟨rfl, combining_forward_tie (CombiningState.mk (fun _ => 3) (fun _ => [5, 5])) 0 5 rfl⟩

/-- Embedding of `torch.dot` on two (flattened) value tensors: the sum of the
elementwise products.  `List.zipWith` matches torch's behaviour on vectors of
equal length (the only way `optimise_scale` is called). -/
def torchDot (a b : List ℚ) : ℚ :=
  (List.zipWith (· * ·) a b).sum

/-- Inner product ⟨a, b⟩ as written in the specification, as a sum over the
index range of `a` (out-of-range entries of `b` read as 0). -/
def innerProduct (a b : List ℚ) : ℚ :=
  ∑ i : Fin a.length, a.get i * b.getD i 0

/-- Embedding of `optimise_scale` from `run_swo.py`: evaluate the (amplitude)
network on the dataset's samples, compute `A = ⟨φ, φ⟩`, `B = ⟨φ, ψ⟩`; Python's
`assert A != 0` becomes `none` on `A = 0`, otherwise the result is `-B / A`. -/
def optimise_scale (ψ : ℕ → ℚ) (dataset : List ℕ × List ℚ) : Option ℚ :=
  let x := dataset.1
  let φ := dataset.2
  let ψv := x.map ψ
  let A := torchDot φ φ
  let B := torchDot φ ψv
  if A = 0 then none else some (-B / A)

theorem torchDot_eq_innerProduct (a b : List ℚ) (h : a.length = b.length) :
    torchDot a b = innerProduct a b := by
  induction a generalizing b with
  | nil => simp [torchDot, innerProduct]
  | cons x xs ih =>
      cases b with
      | nil => simp at h
      | cons y ys =>
          have h' : xs.length = ys.length := by simpa using h
          simp only [torchDot, innerProduct, List.zipWith_cons_cons, List.sum_cons,
            List.length_cons, Fin.sum_univ_succ, Fin.val_succ, List.get_cons_succ]
          simp only [List.get] at *
          have := ih ys h'
          simp only [torchDot, innerProduct] at this
          simp [this]

/-- Claim C2: whenever `⟨φ, φ⟩ ≠ 0`, `optimise_scale` returns
`-⟨φ, ψ⟩ / ⟨φ, φ⟩`, where `φ` is the vector of old target amplitudes and `ψ`
is the new network's prediction on the dataset's samples. -/
theorem optimise_scale_formula (ψ : ℕ → ℚ) (x : List ℕ) (φ : List ℚ)
    (hlen : x.length = φ.length) (h : innerProduct φ φ ≠ 0) :
    optimise_scale ψ (x, φ)
      = some (-(innerProduct φ (x.map ψ)) / innerProduct φ φ) := by
  have h1 : torchDot φ φ = innerProduct φ φ := torchDot_eq_innerProduct φ φ rfl
  have h2 : torchDot φ (x.map ψ) = innerProduct φ (x.map ψ)
    := torchDot_eq_innerProduct φ (x.map ψ) (by simp [hlen])
  simp only [optimise_scale, h1, h2]
  simp [h]

/-- Witness for C2 on samples `[0, 1]`, `φ = [1, 1]`, `ψ` the identity. -/
theorem optimise_scale_formula_witness :
    ([0, 1] : List ℕ).length = ([1, 1] : List ℚ).length
      ∧ innerProduct [1, 1] [1, 1] ≠ 0
      ∧ optimise_scale (fun n => (n : ℚ)) ([0, 1], [1, 1])
          = some (-(innerProduct [1, 1] (([0, 1] : List ℕ).map (fun n => (n : ℚ))))
              / innerProduct [1, 1] [1, 1]) :=
  have hip : innerProduct ([1, 1] : List ℚ) [1, 1] = 2 := by
    rw [← torchDot_eq_innerProduct _ _ rfl]; norm_num [torchDot]
  ⟨rfl, by rw [hip]; norm_num,
    optimise_scale_formula (fun n => (n : ℚ)) [0, 1] [1, 1] rfl (by rw [hip]; norm_num)⟩

/-- A concrete network whose predictions on the samples `[0, 1, 2]` are
`[2, 4, 6]`. -/
def doublingNet : ℕ → ℚ := fun n => 2 * ((n : ℚ) + 1)

/-- Counterexample to claim C3: with `φ = [1, 2, 3]` and predictions
`ψ = [2, 4, 6]`, `optimise_scale` returns `-⟨φ,ψ⟩/⟨φ,φ⟩ = -28/14 = -2`, not
`-1.0` as claimed. -/
theorem optimise_scale_two_phi_not_neg_one :
    (([0, 1, 2] : List ℕ).map doublingNet = [2, 4, 6])
      ∧ optimise_scale doublingNet ([0, 1, 2], [1, 2, 3]) = some (-2)
      ∧ optimise_scale doublingNet ([0, 1, 2], [1, 2, 3]) ≠ some (-1) := by
  refine ⟨by norm_num [doublingNet], ?_, ?_⟩ <;>
    norm_num [optimise_scale, torchDot, doublingNet]

/-- Claim C3 as amended: with `φ = [1, 2, 3]` and a network predicting
`[2, 4, 6]` on the dataset's samples, `optimise_scale` returns exactly `-2`
(the negated least-squares ratio `-⟨φ,ψ⟩/⟨φ,φ⟩ = -28/14`). -/
theorem optimise_scale_two_phi :
    (([0, 1, 2] : List ℕ).map doublingNet = [2, 4, 6])
      ∧ optimise_scale doublingNet ([0, 1, 2], [1, 2, 3]) = some (-2) := by
  refine ⟨by norm_num [doublingNet], ?_⟩
  norm_num [optimise_scale, torchDot, doublingNet]

/-- Embedding of Python's `range(0, stop, step)` for a positive `step`: the
list `[0, step, 2*step, ...]` of length `⌈stop / step⌉`. -/
def pythonRangeStep (stop step : ℕ) : List ℕ :=
  (List.range ((stop + step - 1) / step)).map (fun i => i * step)

/-- Embedding of `_make_checkpoints_for` from `run_swo.py`: for `n ≤ 10` all
iterations `range(0, n)`; otherwise `range(0, n, n // 10)`, with `n - 1`
appended when it is not already the last element. -/
def _make_checkpoints_for (n : ℕ) : List ℕ :=
  if n ≤ 10 then List.range n
  else if (pythonRangeStep n (n / 10)).getLast? ≠ some (n - 1) then
    pythonRangeStep n (n / 10) ++ [n - 1]
  else pythonRangeStep n (n / 10)

theorem pythonRangeStep_mem {n step x : ℕ}
    (hx : x ∈ pythonRangeStep n step) :
    ∃ i, i < (n + step - 1) / step ∧ x = i * step := by
  simp only [pythonRangeStep, List.mem_map, List.mem_range] at hx
  obtain ⟨i, hi, rfl⟩ := hx
  exact ⟨i, hi, rfl⟩

theorem lt_rangeStepLen_iff {n step i : ℕ} (hn : 1 ≤ n) (hstep : 0 < step) :
    i < (n + step - 1) / step ↔ i * step ≤ n - 1 := by
  rw [Nat.lt_iff_add_one_le, Nat.le_div_iff_mul_le hstep, add_one_mul]
  constructor
  · intro hle
    have h2 : i * step + step ≤ n + step - 1 := hle
    omega
  · intro hle
    omega

theorem pythonRangeStep_getLast {n step : ℕ}
    (hcnt1 : 1 ≤ (n + step - 1) / step) :
    (pythonRangeStep n step).getLast?
      = some (((n + step - 1) / step - 1) * step) := by
  obtain ⟨m, hm⟩ : ∃ m, (n + step - 1) / step = m + 1 :=
    ⟨(n + step - 1) / step - 1, by omega⟩
  rw [pythonRangeStep, hm, List.range_succ, List.map_append]
  simp

/-- Claim C10: for `n ≥ 1`, `_make_checkpoints_for n` returns a strictly
increasing list of iteration indices within `[0, n-1]` whose last element is
`n - 1`; for `n ≤ 10` the list is exactly `[0, 1, ..., n-1]`. -/
theorem make_checkpoints_spec (n : ℕ) (h : 1 ≤ n) :
    List.Pairwise (· < ·) (_make_checkpoints_for n)
      ∧ (∀ x ∈ _make_checkpoints_for n, x ≤ n - 1)
      ∧ (_make_checkpoints_for n).getLast? = some (n - 1)
      ∧ (n ≤ 10 → _make_checkpoints_for n = List.range n) := by
  by_cases h10 : n ≤ 10
  · obtain ⟨m, rfl⟩ : ∃ m, n = m + 1 := ⟨n - 1, by omega⟩
    unfold _make_checkpoints_for
    rw [if_pos h10]
    refine ⟨List.pairwise_lt_range _, ?_, ?_, fun _ => rfl⟩
    · intro x hx; rw [List.mem_range] at hx; omega
    · rw [List.range_succ, List.getLast?_concat]; simp
  · push_neg at h10
    have hstep : 0 < n / 10 := Nat.div_pos (by omega) (by omega)
    set step := n / 10 with hstepdef
    set cnt := (n + step - 1) / step with hcnt
    have hcnt1 : 1 ≤ cnt := by
      rw [hcnt, Nat.le_div_iff_mul_le hstep, one_mul]; omega
    have hkey : ∀ i, i < cnt ↔ i * step ≤ n - 1 :=
      fun i => lt_rangeStepLen_iff (by omega) hstep
    have hmem : ∀ x ∈ pythonRangeStep n step, x ≤ n - 1 := by
      intro x hx
      obtain ⟨i, hi, rfl⟩ := pythonRangeStep_mem hx
      exact (hkey i).1 hi
    have hbound : ∀ x ∈ pythonRangeStep n step, x ≤ (cnt - 1) * step := by
      intro x hx
      obtain ⟨i, hi, rfl⟩ := pythonRangeStep_mem hx
      exact Nat.mul_le_mul_right step (by omega)
    have hpair : List.Pairwise (· < ·) (pythonRangeStep n step) := by
      rw [pythonRangeStep, List.pairwise_map]
      refine (List.pairwise_lt_range _).imp ?_
      intro a b hab
      exact (Nat.mul_lt_mul_right hstep).mpr hab
    have hlast0 : (pythonRangeStep n step).getLast? = some ((cnt - 1) * step) :=
      pythonRangeStep_getLast hcnt1
    have hne10 : ¬ n ≤ 10 := by omega
    by_cases hl : (pythonRangeStep n step).getLast? ≠ some (n - 1)
    · have hlt : (cnt - 1) * step < n - 1 := by
        have h1 : (cnt - 1) * step ≤ n - 1 := (hkey (cnt - 1)).1 (by omega)
        have h2 : (cnt - 1) * step ≠ n - 1 := by
          intro hEq; exact hl (by rw [hlast0, hEq])
        omega
      unfold _make_checkpoints_for
      rw [if_neg hne10, if_pos hl]
      refine ⟨?_, ?_, ?_, fun hc => absurd hc hne10⟩
      · rw [List.pairwise_append]
        refine ⟨hpair, by simp, ?_⟩
        intro a ha b hb
        rw [List.mem_singleton] at hb
        subst hb
        exact lt_of_le_of_lt (hbound a ha) hlt
      · intro x hx
        rw [List.mem_append, List.mem_singleton] at hx
        rcases hx with hx | rfl
        · exact hmem x hx
        · exact le_refl _
      · exact List.getLast?_concat _
    · push_neg at hl
      unfold _make_checkpoints_for
      rw [if_neg hne10, if_neg (by simpa using hl)]
      exact ⟨hpair, hmem, hl, fun hc => absurd hc hne10⟩

/-- Witness for C10 at `n = 25`. -/
theorem make_checkpoints_spec_witness :
    1 ≤ 25
      ∧ (List.Pairwise (· < ·) (_make_checkpoints_for 25)
          ∧ (∀ x ∈ _make_checkpoints_for 25, x ≤ 25 - 1)
          ∧ (_make_checkpoints_for 25).getLast? = some (25 - 1)
          ∧ (25 ≤ 10 → _make_checkpoints_for 25 = List.range 25)) :=
  ⟨by decide, make_checkpoints_spec 25 (by decide)⟩

/-- Amplitude regression targets, `torch.abs(φ)` (lines 260 and 346 of
`run_swo.py`). -/
def targetAmplitudes (φ : List ℚ) : List ℚ :=
  φ.map (fun v => |v|)

/-- Phase classification targets,
`torch.where(φ >= 0.0, torch.tensor([0]), torch.tensor([1]))` (lines 261 and
347 of `run_swo.py`). -/
def targetSigns (φ : List ℚ) : List ℕ :=
  φ.map (fun v => if 0 ≤ v then 0 else 1)

/-- A sampled ensemble as produced by the external engine: deduplicated
(configuration, value, count) triples. -/
structure Ensemble where
  entries : List (ℕ × ℚ × ℕ)
deriving DecidableEq

/-- Embedding of `result.to_tensors()`: the flat tensors of configurations,
values and counts, in entry order. -/
def Ensemble.to_tensors (e : Ensemble) : List ℕ × List ℚ × List ℕ :=
  (e.entries.map (fun t => t.1), e.entries.map (fun t => t.2.1),
    e.entries.map (fun t => t.2.2))

/-- Embedding of `result.values(values)`: replace the stored values by the
given tensor, keeping configurations and counts. -/
def Ensemble.setValues (e : Ensemble) (vs : List ℚ) : Ensemble :=
  ⟨List.zipWith (fun t v => (t.1, v, t.2.2)) e.entries vs⟩

/-- The external collaborators of `run_swo.py`: the `_C_nqs` sampling engine
(`sample_some`, `sample_difference`, `merge`), `torch.jit.load` of a saved
combined state, and the torch training loops `train_amplitude` / `train_phase`
(whose gradient-descent internals are opaque to this file's claims).  All are
passed as explicit read-only functions. -/
structure Env where
  sample_some : String → Ensemble
  sample_difference : String → String → ℚ → Ensemble
  jit_load : String → (ℕ → ℚ)
  train_amplitude : (ℕ → ℚ) → List ℕ → List ℚ → (ℕ → ℚ)
  train_phase : (ℕ → List ℚ) → List ℕ → List ℕ → (ℕ → List ℚ)
  merge : Ensemble → Ensemble → Ensemble

/-- Observable side effects of one `swo_step`, in program order: checkpoint
saves, sampler invocations (with the checkpoint filenames they read, and for
difference sampling the scale handed to the polynomial filter), and the
ensemble merge. -/
inductive Event where
  | save : String → Event
  | sample : String → Event
  | sampleDiff : String → String → ℚ → Event
  | merge : Ensemble → Ensemble → Event
deriving DecidableEq

/-- True exactly on difference-sampling events. -/
def Event.isSampleDiff : Event → Bool
  | .sampleDiff _ _ _ => true
  | _ => false

/-- Result of `generate_train_data`: the 4-tuple
`(samples, target_amplitudes, target_signs, result)`. -/
structure TrainData where
  samples : List ℕ
  target_amplitudes : List ℚ
  target_signs : List ℕ
  result : Ensemble

/-- Embedding of `generate_train_data` (the executed `explicit = False`
branch): sample via the checkpoint `filename`, flatten the ensemble, and
derive the supervised targets from the sampled values `φ`. -/
def generate_train_data (env : Env) (filename : String) :
    TrainData × List Event :=
  let result := env.sample_some filename
  let samples := result.to_tensors.1
  let φ := result.to_tensors.2.1
  (⟨samples, targetAmplitudes φ, targetSigns φ, result⟩, [Event.sample filename])

/-- Embedding of `generate_more_data`: run difference sampling between the two
checkpoints, then replace each sampled value `v` at configuration `x` by
`(v + ψ_new(x)) / scale` where `ψ_new` is the newly saved combined state
loaded back from `new_state`. -/
def generate_more_data (env : Env) (new_state old_state : String) (scale : ℚ) :
    Ensemble × List Event :=
  let result := env.sample_difference new_state old_state scale
  let samples := result.to_tensors.1
  let values := result.to_tensors.2.1
  let values₂ := List.zipWith (fun v x => v + env.jit_load new_state x) values samples
  let values₃ := values₂.map (fun v => v / scale)
  (result.setValues values₃, [Event.sampleDiff new_state old_state scale])

/-- Checkpoint filename of the previous combined state. -/
def tempfile_old : String := ".temp-swo-model.old.pt"

/-- Checkpoint filename of the newly trained combined state. -/
def tempfile_current : String := ".temp-swo-model.current.pt"

/-- The configuration switch relevant to the orchestration flow. -/
structure SwoConfig where
  difference_sampling : Bool

/-- Embedding of `swo_step`: save the current combined state, sample training
data through that checkpoint, train both networks, and (under
`difference_sampling`) compute `scale = abs(optimise_scale(...))`, save the
new combined state, difference-sample, merge, rederive targets and retrain.
The first component is the trace of external side effects in program order;
the second is `none` when the `assert` in `optimise_scale` fires (the script
installs no handler, so the exception propagates out of `swo_step`). -/
def swo_step (env : Env) (config : SwoConfig)
    (ψ : (ℕ → ℚ) × (ℕ → List ℚ)) :
    List Event × Option ((ℕ → ℚ) × (ℕ → List ℚ)) :=
  let td := (generate_train_data env tempfile_old).1
  let ev₁ := (generate_train_data env tempfile_old).2
  let ψ_amplitude := env.train_amplitude ψ.1 td.samples td.target_amplitudes
  let ψ_phase := env.train_phase ψ.2 td.samples td.target_signs
  if config.difference_sampling = true then
    match optimise_scale ψ_amplitude (td.samples, td.target_amplitudes) with
    | none => (Event.save tempfile_old :: ev₁, none)
    | some s =>
        let scale := |s|
        let extra := (generate_more_data env tempfile_current tempfile_old scale).1
        let ev₂ := (generate_more_data env tempfile_current tempfile_old scale).2
        let merged := env.merge td.result extra
        let samples₂ := merged.to_tensors.1
        let φ₂ := merged.to_tensors.2.1
        let ψ_amplitude₂ := env.train_amplitude ψ_amplitude samples₂ (targetAmplitudes φ₂)
        let ψ_phase₂ := env.train_phase ψ_phase samples₂ (targetSigns φ₂)
        (Event.save tempfile_old :: ev₁
            ++ Event.save tempfile_current :: ev₂
            ++ [Event.merge td.result extra],
          some (ψ_amplitude₂, ψ_phase₂))
  else
    (Event.save tempfile_old :: ev₁, some (ψ_amplitude, ψ_phase))

/-- The outer loop of `main`: iterate `swo_step`, an uncaught exception in any
iteration aborting the whole run. -/
def swo_run (env : Env) (config : SwoConfig) :
    (ℕ → ℚ) × (ℕ → List ℚ) → ℕ → Option ((ℕ → ℚ) × (ℕ → List ℚ))
  | ψ, 0 => some ψ
  | ψ, n + 1 =>
      match (swo_step env config ψ).2 with
      | none => none
      | some ψ₂ => swo_run env config ψ₂ n

/-- Claim C5: for every sampled value vector, the derived supervised targets
satisfy: the amplitude regression target is `|φ|` elementwise, and the phase
classification target is `0` where `φ ≥ 0` and `1` where `φ < 0`. -/
theorem train_targets_spec (env : Env) (f : String) (i : ℕ) (v : ℚ)
    (hv : (env.sample_some f).to_tensors.2.1[i]? = some v) :
    (generate_train_data env f).1.target_amplitudes[i]? = some |v|
      ∧ (generate_train_data env f).1.target_signs[i]?
          = some (if 0 ≤ v then 0 else 1)
      ∧ (0 ≤ v → (generate_train_data env f).1.target_signs[i]? = some 0)
      ∧ (v < 0 → (generate_train_data env f).1.target_signs[i]? = some 1) := by
  have ha : (generate_train_data env f).1.target_amplitudes[i]? = some |v| := by
    simp [generate_train_data, targetAmplitudes, List.getElem?_map, hv]
  have hs : (generate_train_data env f).1.target_signs[i]?
      = some (if 0 ≤ v then 0 else 1) := by
    simp [generate_train_data, targetSigns, List.getElem?_map, hv]
  refine ⟨ha, hs, ?_, ?_⟩
  · intro h; rw [hs, if_pos h]
  · intro h; rw [hs, if_neg (not_le.mpr h)]

/-- A concrete environment used by witnesses: the sampler returns a fixed
one-entry ensemble with value `-3`, and the training loops are the identity. -/
def witnessEnv : Env :=
  { sample_some := fun _ => ⟨[(0, -3, 2)]⟩
  , sample_difference := fun _ _ _ => ⟨[(1, 5, 4)]⟩
  , jit_load := fun _ => fun x => (x : ℚ) + 1
  , train_amplitude := fun net _ _ => net
  , train_phase := fun net _ _ => net
  , merge := fun a b => ⟨a.entries ++ b.entries⟩ }

/-- Witness for C5 at the concrete sampler value `-3`. -/
theorem train_targets_spec_witness :
    (witnessEnv.sample_some tempfile_old).to_tensors.2.1[0]? = some ((-3 : ℚ))
      ∧ ((generate_train_data witnessEnv tempfile_old).1.target_amplitudes[0]?
            = some (abs (-3 : ℚ))
          ∧ (generate_train_data witnessEnv tempfile_old).1.target_signs[0]?
              = some (if 0 ≤ (-3 : ℚ) then 0 else 1)
          ∧ (0 ≤ (-3 : ℚ) →
              (generate_train_data witnessEnv tempfile_old).1.target_signs[0]? = some 0)
          ∧ ((-3 : ℚ) < 0 →
              (generate_train_data witnessEnv tempfile_old).1.target_signs[0]? = some 1)) :=
  have hv : (witnessEnv.sample_some tempfile_old).to_tensors.2.1[0]? = some ((-3 : ℚ)) := by
    simp [witnessEnv, Ensemble.to_tensors]
  ⟨hv, train_targets_spec witnessEnv tempfile_old 0 (-3) hv⟩

/-- Claim C9: in every outer iteration, `swo_step` saves the current combined
state to the checkpoint file strictly before invoking the sampler with that
filename: the trace of side effects starts with the completed save of
`tempfile_old` followed by the sampling read of `tempfile_old`. -/
theorem swo_step_save_before_sample (env : Env) (config : SwoConfig)
    (ψ : (ℕ → ℚ) × (ℕ → List ℚ)) :
    ∃ t, (swo_step env config ψ).1
        = Event.save tempfile_old :: Event.sample tempfile_old :: t := by
  by_cases hd : config.difference_sampling = true
  · cases hopt : optimise_scale
        (env.train_amplitude ψ.1 (generate_train_data env tempfile_old).1.samples
          (generate_train_data env tempfile_old).1.target_amplitudes)
        ((generate_train_data env tempfile_old).1.samples,
          (generate_train_data env tempfile_old).1.target_amplitudes) with
    | none =>
        refine ⟨[], ?_⟩
        simp only [swo_step, hd, if_true]
        rw [hopt]
        simp [generate_train_data]
    | some s =>
        simp only [swo_step, hd, if_true]
        rw [hopt]
        simp only [generate_train_data]
        exact ⟨_, rfl⟩
  · refine ⟨[], ?_⟩
    simp only [swo_step, if_neg hd]
    simp [generate_train_data]

/-- Claim C8: in the difference-sampling branch, the scale passed onward to
the polynomial filter and `generate_more_data` is the absolute value of
`optimise_scale`'s result, hence non-negative: the returned sign is discarded
by the caller. -/
theorem swo_step_scale_abs (env : Env) (config : SwoConfig)
    (ψ : (ℕ → ℚ) × (ℕ → List ℚ)) (s : ℚ)
    (hdiff : config.difference_sampling = true)
    (hopt : optimise_scale
        (env.train_amplitude ψ.1 (generate_train_data env tempfile_old).1.samples
          (generate_train_data env tempfile_old).1.target_amplitudes)
        ((generate_train_data env tempfile_old).1.samples,
          (generate_train_data env tempfile_old).1.target_amplitudes) = some s) :
    (swo_step env config ψ).1.filter Event.isSampleDiff
        = [Event.sampleDiff tempfile_current tempfile_old (abs s)]
      ∧ 0 ≤ abs s := by
  refine ⟨?_, abs_nonneg s⟩
  simp only [swo_step, hdiff]
  rw [hopt]
  simp [generate_train_data, generate_more_data, Event.isSampleDiff]

/-- The amplitude network used in concrete witnesses. -/
def witnessAmpNet : ℕ → ℚ := fun _ => 6

/-- The phase network used in concrete witnesses. -/
def witnessPhaseNet : ℕ → List ℚ := fun _ => [0, 0]

theorem witness_opt_eq : optimise_scale
    (witnessEnv.train_amplitude witnessAmpNet
      (generate_train_data witnessEnv tempfile_old).1.samples
      (generate_train_data witnessEnv tempfile_old).1.target_amplitudes)
    ((generate_train_data witnessEnv tempfile_old).1.samples,
      (generate_train_data witnessEnv tempfile_old).1.target_amplitudes)
    = some (-2) := by
  have htar : targetAmplitudes [(-3 : ℚ)] = [3] := by
    simp [targetAmplitudes]
  norm_num [optimise_scale, torchDot, generate_train_data, Ensemble.to_tensors,
    witnessEnv, witnessAmpNet, htar]

/-- Witness for C8 at the concrete environment. -/
theorem swo_step_scale_abs_witness :
    (SwoConfig.mk true).difference_sampling = true
      ∧ optimise_scale
          (witnessEnv.train_amplitude (witnessAmpNet, witnessPhaseNet).1
            (generate_train_data witnessEnv tempfile_old).1.samples
            (generate_train_data witnessEnv tempfile_old).1.target_amplitudes)
          ((generate_train_data witnessEnv tempfile_old).1.samples,
            (generate_train_data witnessEnv tempfile_old).1.target_amplitudes)
          = some (-2)
      ∧ ((swo_step witnessEnv (SwoConfig.mk true) (witnessAmpNet, witnessPhaseNet)).1.filter
              Event.isSampleDiff
            = [Event.sampleDiff tempfile_current tempfile_old (abs (-2 : ℚ))]
          ∧ 0 ≤ abs (-2 : ℚ)) :=
  ⟨rfl, witness_opt_eq,
    swo_step_scale_abs witnessEnv (SwoConfig.mk true) (witnessAmpNet, witnessPhaseNet)
      (-2) rfl witness_opt_eq⟩

theorem generate_more_data_entries (env : Env) (new_state old_state : String)
    (scale : ℚ) :
    (generate_more_data env new_state old_state scale).1.entries
      = (env.sample_difference new_state old_state scale).entries.map
          (fun t => (t.1, (t.2.1 + env.jit_load new_state t.1) / scale, t.2.2)) := by
  simp only [generate_more_data, Ensemble.setValues, Ensemble.to_tensors]
  generalize (env.sample_difference new_state old_state scale).entries = E
  induction E with
  | nil => rfl
  | cons e es ih =>
      simp only [List.map_cons, List.zipWith_cons_cons]
      rw [List.cons.injEq]
      exact ⟨rfl, ih⟩

/-- Claim C6: for a nonzero scale, `generate_more_data` replaces each sampled
difference value `v` at configuration `x` by `(v + ψ_new(x)) / scale`, with
`ψ_new` the newly trained combined state loaded from its checkpoint, and only
the rescaled ensemble is handed to the orchestrator's merge. -/
theorem difference_values_rescaled_before_merge (env : Env)
    (new_state old_state : String) (scale : ℚ) (config : SwoConfig)
    (ψ : (ℕ → ℚ) × (ℕ → List ℚ)) (s : ℚ)
    (hscale : scale ≠ 0)
    (hdiff : config.difference_sampling = true)
    (hopt : optimise_scale
        (env.train_amplitude ψ.1 (generate_train_data env tempfile_old).1.samples
          (generate_train_data env tempfile_old).1.target_amplitudes)
        ((generate_train_data env tempfile_old).1.samples,
          (generate_train_data env tempfile_old).1.target_amplitudes) = some s)
    (habs : abs s = scale) :
    (generate_more_data env new_state old_state scale).1.entries
        = (env.sample_difference new_state old_state scale).entries.map
            (fun t => (t.1, (t.2.1 + env.jit_load new_state t.1) / scale, t.2.2))
      ∧ Event.merge (generate_train_data env tempfile_old).1.result
            (generate_more_data env tempfile_current tempfile_old scale).1
          ∈ (swo_step env config ψ).1 := by
  refine ⟨generate_more_data_entries env new_state old_state scale, ?_⟩
  simp only [swo_step, hdiff]
  rw [hopt]
  simp only [if_true]
  rw [habs]
  simp [generate_train_data, List.mem_append]

/-- Witness for C6 at the concrete environment, with `scale = 2 = |-2|`. -/
theorem difference_values_rescaled_before_merge_witness :
    ((2 : ℚ) ≠ 0
        ∧ (SwoConfig.mk true).difference_sampling = true
        ∧ optimise_scale
            (witnessEnv.train_amplitude (witnessAmpNet, witnessPhaseNet).1
              (generate_train_data witnessEnv tempfile_old).1.samples
              (generate_train_data witnessEnv tempfile_old).1.target_amplitudes)
            ((generate_train_data witnessEnv tempfile_old).1.samples,
              (generate_train_data witnessEnv tempfile_old).1.target_amplitudes)
            = some (-2)
        ∧ abs (-2 : ℚ) = 2)
      ∧ ((generate_more_data witnessEnv tempfile_current tempfile_old 2).1.entries
            = (witnessEnv.sample_difference tempfile_current tempfile_old 2).entries.map
                (fun t => (t.1, (t.2.1 + witnessEnv.jit_load tempfile_current t.1) / 2,
                  t.2.2))
          ∧ Event.merge (generate_train_data witnessEnv tempfile_old).1.result
                (generate_more_data witnessEnv tempfile_current tempfile_old 2).1
              ∈ (swo_step witnessEnv (SwoConfig.mk true)
                  (witnessAmpNet, witnessPhaseNet)).1) :=
  ⟨⟨by norm_num, rfl, witness_opt_eq, by norm_num⟩,
    difference_values_rescaled_before_merge witnessEnv tempfile_current tempfile_old 2
      (SwoConfig.mk true) (witnessAmpNet, witnessPhaseNet) (-2)
      (by norm_num) rfl witness_opt_eq (by norm_num)⟩

/-- A concrete environment whose sampler only ever visits configurations of
value `0`, giving zero training signal: `⟨φ, φ⟩ = 0`. -/
def zeroEnv : Env :=
  { sample_some := fun _ => ⟨[(0, 0, 1)]⟩
  , sample_difference := fun _ _ _ => ⟨[]⟩
  , jit_load := fun _ => fun _ => 0
  , train_amplitude := fun net _ _ => net
  , train_phase := fun net _ _ => net
  , merge := fun a b => ⟨a.entries ++ b.entries⟩ }

/-- The amplitude network used at the zero-signal environment. -/
def oneNet : ℕ → ℚ := fun _ => 1

/-- The phase network used at the zero-signal environment. -/
def zeroLogitsNet : ℕ → List ℚ := fun _ => [0, 0]

/-- Counterexample to claim C4's propagation clause: at an environment whose
sampled values are all zero, `optimise_scale` fails (`none`), and the failure
does not stop at the difference-sampling branch: `swo_step` itself produces no
result, and the whole run (here one outer iteration) aborts, because the
script installs no handler for the assertion failure. -/
theorem zero_norm_aborts_whole_run :
    optimise_scale
        (zeroEnv.train_amplitude oneNet
          (generate_train_data zeroEnv tempfile_old).1.samples
          (generate_train_data zeroEnv tempfile_old).1.target_amplitudes)
        ((generate_train_data zeroEnv tempfile_old).1.samples,
          (generate_train_data zeroEnv tempfile_old).1.target_amplitudes) = none
      ∧ (swo_step zeroEnv (SwoConfig.mk true) (oneNet, zeroLogitsNet)).2 = none
      ∧ swo_run zeroEnv (SwoConfig.mk true) (oneNet, zeroLogitsNet) 1 = none := by
  have h1 : optimise_scale
      (zeroEnv.train_amplitude oneNet
        (generate_train_data zeroEnv tempfile_old).1.samples
        (generate_train_data zeroEnv tempfile_old).1.target_amplitudes)
      ((generate_train_data zeroEnv tempfile_old).1.samples,
        (generate_train_data zeroEnv tempfile_old).1.target_amplitudes) = none := by
    norm_num [optimise_scale, torchDot, generate_train_data, targetAmplitudes,
      Ensemble.to_tensors, zeroEnv, oneNet]
  have h2 : (swo_step zeroEnv (SwoConfig.mk true) (oneNet, zeroLogitsNet)).2 = none := by
    simp only [swo_step]
    rw [h1]
    simp
  exact ⟨h1, h2, by simp [swo_run, h2]⟩

/-- Claim C4 (amended): if `⟨φ, φ⟩ = 0` on the training targets,
`optimise_scale` fails rather than returning a value, and — the script having
no exception handler — the failure propagates out of `swo_step` (no updated
networks are produced) and aborts the whole run. -/
theorem optimise_scale_zero_aborts_run (env : Env) (config : SwoConfig)
    (ψ : (ℕ → ℚ) × (ℕ → List ℚ)) (n : ℕ)
    (hdiff : config.difference_sampling = true)
    (hA : torchDot (generate_train_data env tempfile_old).1.target_amplitudes
        (generate_train_data env tempfile_old).1.target_amplitudes = 0)
    (hn : 1 ≤ n) :
    optimise_scale
        (env.train_amplitude ψ.1 (generate_train_data env tempfile_old).1.samples
          (generate_train_data env tempfile_old).1.target_amplitudes)
        ((generate_train_data env tempfile_old).1.samples,
          (generate_train_data env tempfile_old).1.target_amplitudes) = none
      ∧ (swo_step env config ψ).2 = none
      ∧ swo_run env config ψ n = none := by
  have h1 : optimise_scale
      (env.train_amplitude ψ.1 (generate_train_data env tempfile_old).1.samples
        (generate_train_data env tempfile_old).1.target_amplitudes)
      ((generate_train_data env tempfile_old).1.samples,
        (generate_train_data env tempfile_old).1.target_amplitudes) = none := by
    simp [optimise_scale, hA]
  have h2 : (swo_step env config ψ).2 = none := by
    simp only [swo_step, hdiff]
    rw [h1]
    simp
  obtain ⟨m, rfl⟩ : ∃ m, n = m + 1 := ⟨n - 1, by omega⟩
  exact ⟨h1, h2, by simp [swo_run, h2]⟩

/-- Witness for the amended C4 at the zero-signal environment, two outer
iterations. -/
theorem optimise_scale_zero_aborts_run_witness :
    ((SwoConfig.mk true).difference_sampling = true
        ∧ torchDot (generate_train_data zeroEnv tempfile_old).1.target_amplitudes
            (generate_train_data zeroEnv tempfile_old).1.target_amplitudes = 0
        ∧ 1 ≤ 2)
      ∧ (optimise_scale
            (zeroEnv.train_amplitude (oneNet, zeroLogitsNet).1
              (generate_train_data zeroEnv tempfile_old).1.samples
              (generate_train_data zeroEnv tempfile_old).1.target_amplitudes)
            ((generate_train_data zeroEnv tempfile_old).1.samples,
              (generate_train_data zeroEnv tempfile_old).1.target_amplitudes) = none
          ∧ (swo_step zeroEnv (SwoConfig.mk true) (oneNet, zeroLogitsNet)).2 = none
          ∧ swo_run zeroEnv (SwoConfig.mk true) (oneNet, zeroLogitsNet) 2 = none) :=
  have hA : torchDot (generate_train_data zeroEnv tempfile_old).1.target_amplitudes
      (generate_train_data zeroEnv tempfile_old).1.target_amplitudes = 0 := by
    norm_num [torchDot, generate_train_data, targetAmplitudes, Ensemble.to_tensors,
      zeroEnv]
  ⟨⟨rfl, hA, by norm_num⟩,
    optimise_scale_zero_aborts_run zeroEnv (SwoConfig.mk true) (oneNet, zeroLogitsNet) 2
      rfl hA (by norm_num)⟩
